import Mathlib

/-!
A shallow embedding of `src/strava/fetch_strava_activities.py`: the
resilient request executor (`make_api_request`), the credential refresher
(`refresh_access_token`), and the pagination / normalization / output
pipeline of `main`.  Network and filesystem effects are made explicit:
the outcome of the k-th HTTP GET is given by an oracle `net : Nat → NetResult`,
the outcome of the (at most one) token-exchange call by a `RefreshOutcome`,
and sleeps are recorded in a trace instead of being performed.
-/

namespace StravaFetch

/-- Outcome of one `requests.get` call: either an HTTP response carrying a
status code, an optional parsed `Retry-After` header and a body, or a
network-level `requests.exceptions.RequestException`. -/
inductive NetResult where
  | resp (status : Nat) (retryAfter : Option Nat) (body : String)
  | netErr (msg : String)
deriving DecidableEq, Repr

/-- Outcome of a call to `refresh_access_token` as seen by
`make_api_request`: success with the new access token, a
`requests.exceptions.RequestException` raised by the token POST (which the
outer `except` clause of `make_api_request` catches), or any other
exception (missing config, non-200 exchange, or a failed `.env` write),
which propagates out of `make_api_request`. -/
inductive RefreshOutcome where
  | ok (token : String)
  | errNet (msg : String)
  | errOther (msg : String)
deriving DecidableEq, Repr

instance {α β : Type} [DecidableEq α] [DecidableEq β] : DecidableEq (Except α β) := fun a b =>
  match a, b with
  | .ok x, .ok y =>
    if h : x = y then .isTrue (h ▸ rfl) else .isFalse (fun hc => h (Except.ok.inj hc))
  | .error x, .error y =>
    if h : x = y then .isTrue (h ▸ rfl) else .isFalse (fun hc => h (Except.error.inj hc))
  | .ok _, .error _ => .isFalse (fun hc => Except.noConfusion hc)
  | .error _, .ok _ => .isFalse (fun hc => Except.noConfusion hc)

/-- Observable behaviour of one `make_api_request` call: the returned body
or the raised exception's message, the number of HTTP GETs issued, and the
list of sleep durations (seconds) in order. -/
structure ExecTrace where
  result : Except String String
  requests : Nat
  sleeps : List Nat
deriving DecidableEq, Repr

/-- Message of the `raise Exception("Unexpected error in API request")`
reached when the `for` loop of `make_api_request` exhausts its iterations
without returning. -/
def unexpectedMsg : String := "Unexpected error in API request"

/-- Message of `Exception(f"API request failed after {max_retries} attempts: {e}")`
raised when the last attempt fails with a `RequestException` (a network
fault, or the `HTTPError` from `response.raise_for_status()`). -/
def requestFailedMsg (maxRetries : Nat) (e : String) : String :=
  "API request failed after " ++ toString maxRetries ++ " attempts: " ++ e

/-- The body of `for attempt in range(max_retries)` in `make_api_request`.
`fuel` is the number of loop iterations remaining (`maxRetries - attempt`
at every call site), `attempt` the 0-indexed loop variable, `r` the number
of GETs issued so far (the index into `net`), `s` the sleeps so far and
`token` the current bearer token held in `headers`.  The `fuel = 0` case is
the `raise Exception("Unexpected error in API request")` after the loop. -/
def attemptLoop (net : Nat → NetResult) (refresh : RefreshOutcome) (maxRetries : Nat) :
    Nat → Nat → Nat → List Nat → String → ExecTrace
  | 0, _, r, s, _ => ⟨.error unexpectedMsg, r, s⟩
  | fuel + 1, attempt, r, s, token =>
    match net r with
    | .netErr e =>
      if attempt = maxRetries - 1 then
        ⟨.error (requestFailedMsg maxRetries e), r + 1, s⟩
      else
        attemptLoop net refresh maxRetries fuel (attempt + 1) (r + 1) (s ++ [2 ^ attempt]) token
    | .resp status retryAfter body =>
      if status = 429 then
        attemptLoop net refresh maxRetries fuel (attempt + 1) (r + 1)
          (s ++ [retryAfter.getD 60]) token
      else if status = 401 ∧ attempt = 0 then
        match refresh with
        | .ok newToken =>
          attemptLoop net refresh maxRetries fuel (attempt + 1) (r + 1) s newToken
        | .errOther e => ⟨.error e, r + 1, s⟩
        | .errNet e =>
          if attempt = maxRetries - 1 then
            ⟨.error (requestFailedMsg maxRetries e), r + 1, s⟩
          else
            attemptLoop net refresh maxRetries fuel (attempt + 1) (r + 1)
              (s ++ [2 ^ attempt]) token
      else if status = 200 then
        ⟨.ok body, r + 1, s⟩
      else if attempt < maxRetries - 1 then
        attemptLoop net refresh maxRetries fuel (attempt + 1) (r + 1) (s ++ [2 ^ attempt]) token
      else if 400 ≤ status then
        ⟨.error (requestFailedMsg maxRetries ("HTTPError " ++ toString status)), r + 1, s⟩
      else
        ⟨.error unexpectedMsg, r + 1, s⟩

/-- `make_api_request(url, headers, params, max_retries)`.  The URL and
query parameters only feed `requests.get` and are folded into the oracle
`net`; `headers` is represented by the bearer `token` it carries (the only
header the function reads or writes). -/
def make_api_request (net : Nat → NetResult) (refresh : RefreshOutcome)
    (maxRetries : Nat) (token : String) : ExecTrace :=
  attemptLoop net refresh maxRetries maxRetries 0 0 [] token

/-- A JSON scalar as it appears in an activity object: a number or a
string.  Exact rationals stand in for Python floats. -/
inductive Value where
  | num (q : ℚ)
  | str (s : String)
deriving DecidableEq, Repr

/-- A raw activity record: a JSON object, i.e. a finite key-value map,
modelled as an association list (keys are unique in a Python dict; lookup
takes the first match). -/
abbrev RawRecord := List (String × Value)

/-- A normalized output row, kept as an association list so that the set
of keys the normalizer emits is part of the value, as it is for the Python
dict literal appended to `all_activities`. -/
abbrev Row := List (String × Value)

/-- `obj[k]` / `obj.get(k)`: first value bound to `k`. -/
def jget (a : List (String × Value)) (k : String) : Option Value :=
  (a.find? (fun p => p.1 == k)).map (fun p => p.2)

/-- `activity.get(k, default)` where the caller keeps the raw value. -/
def getRaw (a : RawRecord) (k : String) (default : Value) : Value :=
  (jget a k).getD default

/-- `activity.get(k, default)` used in an arithmetic context: absent keys
yield the numeric default; a present non-numeric value is a `TypeError`
(an exception, aborting the surrounding `try` block). -/
def getNum (a : RawRecord) (k : String) (default : ℚ) : Except String ℚ :=
  match jget a k with
  | none => .ok default
  | some (.num q) => .ok q
  | some (.str _) => .error ("TypeError: " ++ k)

/-- `activity[k]`: a missing key is a `KeyError` exception. -/
def mandatory (a : RawRecord) (k : String) : Except String Value :=
  match jget a k with
  | some v => .ok v
  | none => .error ("KeyError: " ++ k)

/-- Python 3 `round` to an integer: round half to even. -/
def roundHalfEven (q : ℚ) : ℤ :=
  if q - ⌊q⌋ < 1 / 2 then ⌊q⌋
  else if 1 / 2 < q - ⌊q⌋ then ⌊q⌋ + 1
  else if ⌊q⌋ % 2 = 0 then ⌊q⌋ else ⌊q⌋ + 1

/-- `round(x, 2)`. -/
def round2 (q : ℚ) : ℚ := (roundHalfEven (q * 100) : ℚ) / 100

/-- `round(x, 1)`. -/
def round1 (q : ℚ) : ℚ := (roundHalfEven (q * 10) : ℚ) / 10

/-- The distance conversion of line 146: `round(activity.get("distance", 0) / 1000, 2)`,
metres (the source base unit) to kilometres at 2 decimal places. -/
def distance_km (d : ℚ) : ℚ := round2 (d / 1000)

/-- `activity.get("sport_type", activity["type"])`: Python evaluates the
default argument `activity["type"]` before the `.get` call, so a missing
`"type"` key raises `KeyError` even when `"sport_type"` is present. -/
def sportOf (a : RawRecord) : Except String Value := do
  let dflt ← mandatory a "type"
  match jget a "sport_type" with
  | some v => pure v
  | none => pure dflt

/-- The dict literal of lines 141-157: one raw activity mapped to its
fixed-shape row.  Any `KeyError`/`TypeError` escapes the per-record loop
and is caught by `main`'s `except`, so the result is `Except`. -/
def normalize (a : RawRecord) : Except String Row := do
  let vid ← mandatory a "id"
  let vname ← mandatory a "name"
  let vsport ← sportOf a
  let vstart ← mandatory a "start_date_local"
  let dist ← getNum a "distance" 0
  let mov ← getNum a "moving_time" 0
  let ela ← getNum a "elapsed_time" 0
  let avs ← getNum a "average_speed" 0
  let mxs ← getNum a "max_speed" 0
  pure [("id", vid),
        ("name", vname),
        ("sport_type", vsport),
        ("start_date", vstart),
        ("distance_km", .num (distance_km dist)),
        ("moving_time_min", .num (round1 (mov / 60))),
        ("elapsed_time_min", .num (round1 (ela / 60))),
        ("average_speed_kmph", .num (round2 (avs * (36 / 10)))),
        ("max_speed_kmph", .num (round2 (mxs * (36 / 10)))),
        ("total_elevation_gain_m", getRaw a "total_elevation_gain" (.str "")),
        ("average_heartrate", getRaw a "average_heartrate" (.str "")),
        ("max_heartrate", getRaw a "max_heartrate" (.str "")),
        ("calories", getRaw a "calories" (.str "")),
        ("trainer", getRaw a "trainer" (.num 0)),
        ("commute", getRaw a "commute" (.num 0))]

/-- The key set of every row the normalizer emits, in emission order. -/
def rowKeys : List String :=
  ["id", "name", "sport_type", "start_date", "distance_km", "moving_time_min",
   "elapsed_time_min", "average_speed_kmph", "max_speed_kmph",
   "total_elevation_gain_m", "average_heartrate", "max_heartrate", "calories",
   "trainer", "commute"]

/-- The `while True` pagination loop of `main` (lines 126-161).
`fetchPage page` abstracts `make_api_request(url, headers, params).json()`
for the query `{after, page, per_page}`: either the parsed JSON array of
the page or the message of the exception the request raised.  `fuel`
bounds the number of iterations the model unrolls (the Python loop is
unbounded; every claim below supplies enough fuel), `acc` is
`all_activities`, and `reqs` records the page numbers requested in order. -/
inductive MainResult where
  | done (rows : List Row) (requested : List Nat)
  | failed (msg : String) (requested : List Nat)
  | outOfFuel (rows : List Row) (requested : List Nat)
deriving DecidableEq, Repr

def mainLoop (fetchPage : Nat → Except String (List RawRecord)) :
    Nat → Nat → List Row → List Nat → MainResult
  | 0, _, acc, reqs => .outOfFuel acc reqs
  | fuel + 1, page, acc, reqs =>
    match fetchPage page with
    | .error e => .failed e (reqs ++ [page])
    | .ok [] => .done acc (reqs ++ [page])
    | .ok (a :: rest) =>
      match (a :: rest).mapM normalize with
      | .error e => .failed e (reqs ++ [page])
      | .ok rows => mainLoop fetchPage fuel (page + 1) (acc ++ rows) (reqs ++ [page])

/-- `main`'s fetch phase: the loop started at `page = 1` with an empty
accumulator, wrapped in the `try` whose `except` turns any exception into
an aborted run. -/
def mainRun (fetchPage : Nat → Except String (List RawRecord)) (fuel : Nat) : MainResult :=
  mainLoop fetchPage fuel 1 [] []

/-- `sport_type` of a row, the `groupby` key. -/
def catOf (r : Row) : Value := (jget r "sport_type").getD (.str "")

/-- `distance_km` of a row, as a number. -/
def distOf (r : Row) : ℚ :=
  match jget r "distance_km" with
  | some (.num q) => q
  | _ => 0

/-- The distinct `sport_type` values in order of first appearance. -/
def cats (rows : List Row) : List Value :=
  rows.foldl (fun acc r => if catOf r ∈ acc then acc else acc ++ [catOf r]) []

/-- The summary table of lines 173-176: per `sport_type`, the sum of
`distance_km` and the row count. -/
def summarize (rows : List Row) : List (Value × ℚ × Nat) :=
  (cats rows).map fun c =>
    (c, ((rows.filter (fun r => catOf r = c)).map distOf).sum,
     (rows.filter (fun r => catOf r = c)).length)

/-- Lines 163-177: the two CSV files are written only after the loop has
finished normally; on an aborted run the `except` clause returns before
any `to_csv` call, and on an empty accumulator `main` returns early
(lines 164-166) without writing files either.  `none` = no files on disk,
`some` = the contents of the two files. -/
def writeOutputs : MainResult → Option (List Row × List (Value × ℚ × Nat))
  | .done rows _ => if rows = [] then none else some (rows, summarize rows)
  | .failed _ _ => none
  | .outOfFuel _ _ => none

/-- The token-exchange response of `refresh_access_token` (lines 29-42):
a 200 with the new credential JSON, a non-200 status with its body, or a
`requests` exception from the POST itself. -/
inductive ExchangeResult where
  | ok (access_token : String) (refresh_token : String) (expires_at : Nat)
  | httpErr (status : Nat) (body : String)
  | netErr (msg : String)
deriving DecidableEq, Repr

/-- The credential state `refresh_access_token` mutates: the three
`os.environ` entries (in-memory) and the `.env` file (durable).  The
`.env` file is modelled by the credential triple it would contain. -/
structure CredState where
  memAccess : Option String
  memRefresh : Option String
  memExpires : Option String
  envFile : Option (String × String × Nat)
deriving DecidableEq, Repr

/-- Python truthiness of a config value: `None` (unset) and the empty
string are falsy, so `all([REFRESH_TOKEN, CLIENT_ID, CLIENT_SECRET])`
fails on either. -/
def falsy : Option String → Bool
  | none => true
  | some s => s = ""

/-- `refresh_access_token()` (lines 22-60).  `exchange` is the outcome of
the token POST; `persistOk` tells whether the `.env` write (lines 56-57)
succeeds — when it fails, the raised `OSError` propagates out of the
function (there is no `try` around the write).  Returns the state after
the call together with the returned access token or the message of the
exception that escaped. -/
def refresh_access_token (refreshToken clientId clientSecret : Option String)
    (exchange : ExchangeResult) (persistOk : Bool) (st : CredState) :
    CredState × Except String String :=
  if falsy refreshToken || falsy clientId || falsy clientSecret then
    (st, .error "Missing refresh token, client ID, or client secret for token refresh")
  else
    match exchange with
    | .netErr e => (st, .error e)
    | .httpErr status body =>
      (st, .error ("Failed to refresh token: " ++ toString status ++ " - " ++ body))
    | .ok access refresh expires =>
      let st1 : CredState :=
        { st with memAccess := some access, memRefresh := some refresh,
                  memExpires := some (toString expires) }
      if persistOk then
        ({ st1 with envFile := some (access, refresh, expires) }, .ok access)
      else
        (st1, .error "failed to write .env")

/-- A record carrying only the mandatory fields (`id`, `name`, `type`,
`start_date_local`); every optional field is absent. -/
def sampleRec : RawRecord :=
  [("id", .num 1), ("name", .str "n"), ("type", .str "Run"), ("start_date_local", .str "s")]

/-- The row `normalize` produces for `sampleRec`, with the numeric
conversions left unevaluated. -/
def sampleRow : Row :=
  [("id", .num 1), ("name", .str "n"), ("sport_type", .str "Run"), ("start_date", .str "s"),
   ("distance_km", .num (distance_km 0)), ("moving_time_min", .num (round1 (0 / 60))),
   ("elapsed_time_min", .num (round1 (0 / 60))),
   ("average_speed_kmph", .num (round2 (0 * (36 / 10)))),
   ("max_speed_kmph", .num (round2 (0 * (36 / 10)))),
   ("total_elevation_gain_m", .str ""), ("average_heartrate", .str ""),
   ("max_heartrate", .str ""), ("calories", .str ""),
   ("trainer", .num 0), ("commute", .num 0)]

theorem sampleRec_normalize : normalize sampleRec = .ok sampleRow := rfl

theorem roundHalfEven_intCast (z : ℤ) : roundHalfEven (z : ℚ) = z := by
  unfold roundHalfEven
  rw [Int.floor_intCast]
  norm_num

theorem roundHalfEven_zero : roundHalfEven 0 = 0 := by
  have h := roundHalfEven_intCast 0
  rwa [Int.cast_zero] at h

theorem round2_zero : round2 0 = 0 := by
  unfold round2
  rw [zero_mul, roundHalfEven_zero]
  norm_num

theorem round1_zero : round1 0 = 0 := by
  unfold round1
  rw [zero_mul, roundHalfEven_zero]
  norm_num

theorem distance_km_zero : distance_km 0 = 0 := by
  unfold distance_km
  rw [zero_div, round2_zero]

theorem round1_zero_div : round1 (0 / 60) = 0 := by
  rw [zero_div, round1_zero]

theorem round2_zero_mul : round2 (0 * (36 / 10)) = 0 := by
  rw [zero_mul, round2_zero]

/-- Success of `normalize` determines the shape of the row: the nine
fallible lookups succeeded and the row is the dict literal built from
their values. -/
theorem normalize_ok_elim (a : RawRecord) (row : Row) (h : normalize a = .ok row) :
    ∃ vid vname vsport vstart dist mov ela avs mxs,
      mandatory a "id" = .ok vid ∧ mandatory a "name" = .ok vname ∧
      sportOf a = .ok vsport ∧ mandatory a "start_date_local" = .ok vstart ∧
      getNum a "distance" 0 = .ok dist ∧ getNum a "moving_time" 0 = .ok mov ∧
      getNum a "elapsed_time" 0 = .ok ela ∧ getNum a "average_speed" 0 = .ok avs ∧
      getNum a "max_speed" 0 = .ok mxs ∧
      row = [("id", vid), ("name", vname), ("sport_type", vsport), ("start_date", vstart),
             ("distance_km", .num (distance_km dist)),
             ("moving_time_min", .num (round1 (mov / 60))),
             ("elapsed_time_min", .num (round1 (ela / 60))),
             ("average_speed_kmph", .num (round2 (avs * (36 / 10)))),
             ("max_speed_kmph", .num (round2 (mxs * (36 / 10)))),
             ("total_elevation_gain_m", getRaw a "total_elevation_gain" (.str "")),
             ("average_heartrate", getRaw a "average_heartrate" (.str "")),
             ("max_heartrate", getRaw a "max_heartrate" (.str "")),
             ("calories", getRaw a "calories" (.str "")),
             ("trainer", getRaw a "trainer" (.num 0)),
             ("commute", getRaw a "commute" (.num 0))] := by
  unfold normalize at h
  simp only [bind, Except.bind, pure, Except.pure] at h
  split at h
  · simp at h
  rename_i vid h1
  split at h
  · simp at h
  rename_i vname h2
  split at h
  · simp at h
  rename_i vsport h3
  split at h
  · simp at h
  rename_i vstart h4
  split at h
  · simp at h
  rename_i dist h5
  split at h
  · simp at h
  rename_i mov h6
  split at h
  · simp at h
  rename_i ela h7
  split at h
  · simp at h
  rename_i avs h8
  split at h
  · simp at h
  rename_i mxs h9
  exact ⟨vid, vname, vsport, vstart, dist, mov, ela, avs, mxs,
    h1, h2, h3, h4, h5, h6, h7, h8, h9, (Except.ok.inj h).symm⟩

/-- C8: every row the normalizer accepts has exactly the fixed key set
`rowKeys`, in the same order, regardless of which optional fields the raw
record carried. -/
theorem c8_fixed_row_keys (a : RawRecord) (row : Row) (h : normalize a = .ok row) :
    row.map Prod.fst = rowKeys := by
  obtain ⟨vid, vname, vsport, vstart, dist, mov, ela, avs, mxs,
    _, _, _, _, _, _, _, _, _, hrow⟩ := normalize_ok_elim a row h
  subst hrow
  rfl

/-- Witness for C8 at a record with every optional field absent. -/
theorem c8_fixed_row_keys_witness : sampleRow.map Prod.fst = rowKeys :=
  c8_fixed_row_keys sampleRec sampleRow sampleRec_normalize

/-- C3 counterexample: for a record missing the optional `distance` field,
the normalizer emits `distance_km = 0`, a numeric zero — not the
empty-string marker the claim requires for every absent optional field
(likewise the duration and speed fields, shown as 0 in the same row). -/
theorem c3_counterexample :
    normalize sampleRec =
      .ok [("id", .num 1), ("name", .str "n"), ("sport_type", .str "Run"),
           ("start_date", .str "s"), ("distance_km", .num 0), ("moving_time_min", .num 0),
           ("elapsed_time_min", .num 0), ("average_speed_kmph", .num 0),
           ("max_speed_kmph", .num 0), ("total_elevation_gain_m", .str ""),
           ("average_heartrate", .str ""), ("max_heartrate", .str ""), ("calories", .str ""),
           ("trainer", .num 0), ("commute", .num 0)] ∧
    Value.num 0 ≠ Value.str "" := by
  constructor
  · rw [sampleRec_normalize]
    unfold sampleRow
    rw [distance_km_zero, round1_zero_div, round2_zero_mul]
  · exact fun hc => Value.noConfusion hc

/-- C3 amended: an absent optional field always leaves its key present in
the row, but only the elevation-gain, heart-rate and calorie fields
default to the empty-string marker; the distance, duration, speed,
trainer and commute fields default to the numeric zero `0`. -/
theorem c3_optional_field_defaults (a : RawRecord) (row : Row) (h : normalize a = .ok row) :
    (jget a "total_elevation_gain" = none → jget row "total_elevation_gain_m" = some (.str "")) ∧
    (jget a "average_heartrate" = none → jget row "average_heartrate" = some (.str "")) ∧
    (jget a "max_heartrate" = none → jget row "max_heartrate" = some (.str "")) ∧
    (jget a "calories" = none → jget row "calories" = some (.str "")) ∧
    (jget a "distance" = none → jget row "distance_km" = some (.num 0)) ∧
    (jget a "moving_time" = none → jget row "moving_time_min" = some (.num 0)) ∧
    (jget a "elapsed_time" = none → jget row "elapsed_time_min" = some (.num 0)) ∧
    (jget a "average_speed" = none → jget row "average_speed_kmph" = some (.num 0)) ∧
    (jget a "max_speed" = none → jget row "max_speed_kmph" = some (.num 0)) ∧
    (jget a "trainer" = none → jget row "trainer" = some (.num 0)) ∧
    (jget a "commute" = none → jget row "commute" = some (.num 0)) := by
  obtain ⟨vid, vname, vsport, vstart, dist, mov, ela, avs, mxs,
    h1, h2, h3, h4, h5, h6, h7, h8, h9, hrow⟩ := normalize_ok_elim a row h
  subst hrow
  refine ⟨fun hk => ?_, fun hk => ?_, fun hk => ?_, fun hk => ?_, fun hk => ?_,
    fun hk => ?_, fun hk => ?_, fun hk => ?_, fun hk => ?_, fun hk => ?_, fun hk => ?_⟩
  · have hv : getRaw a "total_elevation_gain" (.str "") = .str "" := by
      unfold getRaw; rw [hk]; rfl
    simp [jget, hv]
  · have hv : getRaw a "average_heartrate" (.str "") = .str "" := by
      unfold getRaw; rw [hk]; rfl
    simp [jget, hv]
  · have hv : getRaw a "max_heartrate" (.str "") = .str "" := by
      unfold getRaw; rw [hk]; rfl
    simp [jget, hv]
  · have hv : getRaw a "calories" (.str "") = .str "" := by
      unfold getRaw; rw [hk]; rfl
    simp [jget, hv]
  · simp only [getNum, hk] at h5
    obtain rfl : (0 : ℚ) = dist := Except.ok.inj h5
    simp [jget, distance_km_zero, round2_zero]
  · simp only [getNum, hk] at h6
    obtain rfl : (0 : ℚ) = mov := Except.ok.inj h6
    simp [jget, round1_zero_div, round1_zero]
  · simp only [getNum, hk] at h7
    obtain rfl : (0 : ℚ) = ela := Except.ok.inj h7
    simp [jget, round1_zero_div, round1_zero]
  · simp only [getNum, hk] at h8
    obtain rfl : (0 : ℚ) = avs := Except.ok.inj h8
    simp [jget, round2_zero_mul, round2_zero]
  · simp only [getNum, hk] at h9
    obtain rfl : (0 : ℚ) = mxs := Except.ok.inj h9
    simp [jget, round2_zero_mul, round2_zero]
  · have hv : getRaw a "trainer" (.num 0) = .num 0 := by
      unfold getRaw; rw [hk]; rfl
    simp [jget, hv]
  · have hv : getRaw a "commute" (.num 0) = .num 0 := by
      unfold getRaw; rw [hk]; rfl
    simp [jget, hv]

/-- Witness for the amended C3 at a record with every optional field
absent: `distance_km` is the numeric zero, `average_heartrate` the empty
marker. -/
theorem c3_optional_field_defaults_witness :
    jget sampleRow "distance_km" = some (.num 0) ∧
    jget sampleRow "average_heartrate" = some (.str "") :=
  ⟨(c3_optional_field_defaults sampleRec sampleRow sampleRec_normalize).2.2.2.2.1 rfl,
   (c3_optional_field_defaults sampleRec sampleRow sampleRec_normalize).2.1 rfl⟩

/-- C9 counterexample: re-normalizing the already-normalized distance of a
5000 m activity as raw base-unit input does not round-trip: 5000 m
normalizes to 5 km, but feeding 5 back through the conversion yields 0,
far outside any rounding tolerance of the once-normalized 5. -/
theorem c9_counterexample :
    distance_km 5000 = 5 ∧ distance_km (distance_km 5000) = 0 ∧ (0 : ℚ) ≠ 5 := by
  have h1 : distance_km 5000 = 5 := by
    have hc : ((5000 : ℚ) / 1000) * 100 = ((500 : ℤ) : ℚ) := by norm_num
    unfold distance_km round2
    rw [hc, roundHalfEven_intCast]
    norm_num
  have h2 : distance_km 5 = 0 := by
    have hc : ((5 : ℚ) / 1000) * 100 = 1 / 2 := by norm_num
    have hf : ⌊(1 / 2 : ℚ)⌋ = 0 := by norm_num
    unfold distance_km round2 roundHalfEven
    rw [hc, hf]
    norm_num
  exact ⟨h1, by rw [h1]; exact h2, by norm_num⟩

/-- C9 amended: only the rounding stage of the distance conversion is
idempotent — applying the 2-decimal rounding to an already-rounded value
returns it unchanged; the full conversion re-divides by 1000 and does not
round-trip (see the counterexample). -/
theorem c9_rounding_idempotent (q : ℚ) : round2 (round2 q) = round2 q := by
  unfold round2
  rw [div_mul_cancel₀ _ (by norm_num : (100 : ℚ) ≠ 0), roundHalfEven_intCast]

/-- Every iteration of the retry loop issues exactly one request, so the
request count is bounded by the remaining iteration budget. -/
theorem attemptLoop_requests_le (net : Nat → NetResult) (refresh : RefreshOutcome) (mr : Nat) :
    ∀ (fuel attempt r : Nat) (s : List Nat) (tok : String),
      (attemptLoop net refresh mr fuel attempt r s tok).requests ≤ r + fuel := by
  intro fuel
  induction fuel with
  | zero => intro attempt r s tok; simp [attemptLoop]
  | succ n ih =>
    intro attempt r s tok
    cases hnet : net r with
    | netErr e =>
      simp only [attemptLoop, hnet]
      have hB := ih (attempt + 1) (r + 1) (s ++ [2 ^ attempt]) tok
      split
      · exact (by omega : r + 1 ≤ r + (n + 1))
      · omega
    | resp status retryAfter body =>
      simp only [attemptLoop, hnet]
      have hA := ih (attempt + 1) (r + 1) (s ++ [retryAfter.getD 60]) tok
      have hB := ih (attempt + 1) (r + 1) (s ++ [2 ^ attempt]) tok
      repeat' split
      all_goals
        first
        | omega
        | exact (by omega : r + 1 ≤ r + (n + 1))
        | (rename_i newTok
           have hC := ih (attempt + 1) (r + 1) s newTok
           omega)

/-- When every response the loop will see is a 429, each iteration sleeps
and re-enters the loop, which therefore runs out of iterations and ends in
the post-loop `raise Exception("Unexpected error in API request")`. -/
theorem attemptLoop_all429 (net : Nat → NetResult) (refresh : RefreshOutcome) (mr : Nat) :
    ∀ (fuel attempt r : Nat) (s : List Nat) (tok : String),
      (∀ k, r ≤ k → k < r + fuel → ∃ ra b, net k = .resp 429 ra b) →
      (attemptLoop net refresh mr fuel attempt r s tok).result = .error unexpectedMsg := by
  intro fuel
  induction fuel with
  | zero => intro attempt r s tok _; simp [attemptLoop]
  | succ n ih =>
    intro attempt r s tok hall
    obtain ⟨ra, b, hr⟩ := hall r (Nat.le_refl r) (by omega)
    simp only [attemptLoop, hr, if_pos]
    exact ih (attempt + 1) (r + 1) (s ++ [ra.getD 60]) tok
      (fun k hk1 hk2 => hall k (by omega) (by omega))

/-- C10: `make_api_request` terminates: it issues at most `max_retries`
requests, and `max_retries` consecutive 429 responses make the `for` loop
exhaust its iterations and raise instead of waiting forever. -/
theorem c10_bounded_attempts (net : Nat → NetResult) (refresh : RefreshOutcome)
    (mr : Nat) (tok : String) :
    (make_api_request net refresh mr tok).requests ≤ mr ∧
    ((∀ k, k < mr → ∃ ra b, net k = .resp 429 ra b) →
      (make_api_request net refresh mr tok).result = .error unexpectedMsg) := by
  constructor
  · simpa [make_api_request] using attemptLoop_requests_le net refresh mr mr 0 0 [] tok
  · intro hall
    simpa [make_api_request] using
      attemptLoop_all429 net refresh mr mr 0 0 [] tok
        (fun k _ hk2 => hall k (by omega))

/-- Witness for C10: three 429 responses with `max_retries = 3`. -/
theorem c10_bounded_attempts_witness :
    (make_api_request (fun _ => .resp 429 (some 1) "") (.ok "x") 3 "t").requests ≤ 3 ∧
    (make_api_request (fun _ => .resp 429 (some 1) "") (.ok "x") 3 "t").result =
      .error unexpectedMsg :=
  ⟨(c10_bounded_attempts (fun _ => .resp 429 (some 1) "") (.ok "x") 3 "t").1,
   (c10_bounded_attempts (fun _ => .resp 429 (some 1) "") (.ok "x") 3 "t").2
     (fun _ _ => ⟨some 1, "", rfl⟩)⟩

/-- C1 counterexample: with `max_retries = 3`, three 429 responses exhaust
the whole retry budget — the `continue` after the rate-limit sleep advances
the `for` loop variable — and the call raises even though a 200 would have
followed, instead of re-attempting without consuming the budget as the
claim states. -/
theorem c1_counterexample :
    make_api_request
      (fun k => if k < 3 then .resp 429 (some 7) "" else .resp 200 none "late")
      (.ok "x") 3 "t" = ⟨.error unexpectedMsg, 3, [7, 7, 7]⟩ := by decide

/-- C1 amended: a 429 response makes the executor sleep for the
`Retry-After` duration (60 s when the header is absent) and re-attempt,
but the wait consumes one iteration of the bounded retry budget: the loop
resumes at attempt 1 with one fewer remaining iteration. -/
theorem c1_rate_limit_consumes_budget (net : Nat → NetResult) (refresh : RefreshOutcome)
    (mr : Nat) (tok : String) (ra : Option Nat) (b : String)
    (hnet : net 0 = .resp 429 ra b) (hmr : 0 < mr) :
    make_api_request net refresh mr tok =
      attemptLoop net refresh mr (mr - 1) 1 1 [ra.getD 60] tok := by
  cases mr with
  | zero => omega
  | succ m => simp [make_api_request, attemptLoop, hnet]

/-- Witness for the amended C1: one 429 with no `Retry-After` header,
`max_retries = 2`. -/
theorem c1_rate_limit_consumes_budget_witness :
    make_api_request (fun k => if k = 0 then .resp 429 none "" else .resp 200 none "ok")
      (.ok "x") 2 "t" =
      attemptLoop (fun k => if k = 0 then .resp 429 none "" else .resp 200 none "ok")
        (.ok "x") 2 1 1 1 [60] "t" :=
  c1_rate_limit_consumes_budget _ (.ok "x") 2 "t" none "" rfl (by decide)

/-- C2 counterexample: a 401 on the first attempt, a successful refresh,
and a 401 on the retried attempt do not end the call with
`AuthRefreshError`: the second 401 falls through to the transient-failure
path, the executor sleeps 2 s and issues a third request, whose 200 body
it returns. -/
theorem c2_counterexample :
    make_api_request
      (fun k => if k = 0 then .resp 401 none "" else
                if k = 1 then .resp 401 none "" else .resp 200 none "third")
      (.ok "fresh") 3 "t" = ⟨.ok "third", 3, [2]⟩ := by decide

/-- C2 amended: after a 401 on attempt 0 and a successful refresh, a 401
on the retried attempt is handled as a transient failure — backoff of
`2^1` seconds and a third request — not as a terminal `AuthRefreshError`;
only a failing refresh call itself ends the call at that point. -/
theorem c2_second_401_retried (net : Nat → NetResult) (tok newTok body : String)
    (ra0 ra1 ra2 : Option Nat) (b0 b1 : String)
    (h0 : net 0 = .resp 401 ra0 b0) (h1 : net 1 = .resp 401 ra1 b1)
    (h2 : net 2 = .resp 200 ra2 body) :
    make_api_request net (.ok newTok) 3 tok = ⟨.ok body, 3, [2]⟩ := by
  simp [make_api_request, attemptLoop, h0, h1, h2]

/-- Witness for the amended C2. -/
theorem c2_second_401_retried_witness :
    make_api_request
      (fun k => if k = 0 then .resp 401 none "" else
                if k = 1 then .resp 401 none "" else .resp 200 none "page")
      (.ok "newTok") 3 "t" = ⟨.ok "page", 3, [2]⟩ :=
  c2_second_401_retried _ "t" "newTok" "page" none none none "" "" rfl rfl rfl

/-- C5: 500 on attempts 0 and 1 and 200 on attempt 2 with `max_retries = 3`
returns the third body after sleeping `2^0 = 1` s and `2^1 = 2` s; if the
third attempt is also a 500, the call fails wrapping the last status. -/
theorem c5_transient_backoff (net : Nat → NetResult) (refresh : RefreshOutcome) (tok : String)
    (ra0 ra1 ra2 : Option Nat) (b0 b1 : String) :
    (∀ body, net 0 = .resp 500 ra0 b0 → net 1 = .resp 500 ra1 b1 →
       net 2 = .resp 200 ra2 body →
       make_api_request net refresh 3 tok = ⟨.ok body, 3, [1, 2]⟩) ∧
    (∀ b2, net 0 = .resp 500 ra0 b0 → net 1 = .resp 500 ra1 b1 →
       net 2 = .resp 500 ra2 b2 →
       make_api_request net refresh 3 tok =
         ⟨.error (requestFailedMsg 3 ("HTTPError " ++ toString 500)), 3, [1, 2]⟩) := by
  constructor <;> intro x h0 h1 h2 <;> simp [make_api_request, attemptLoop, h0, h1, h2]

/-- Witness for C5: both scenarios at concrete response sequences. -/
theorem c5_transient_backoff_witness :
    make_api_request (fun k => if k ≤ 1 then .resp 500 none "e" else .resp 200 none "done")
      (.ok "x") 3 "t" = ⟨.ok "done", 3, [1, 2]⟩ ∧
    make_api_request (fun _ => .resp 500 none "e") (.ok "x") 3 "t" =
      ⟨.error (requestFailedMsg 3 ("HTTPError " ++ toString 500)), 3, [1, 2]⟩ :=
  ⟨(c5_transient_backoff _ (.ok "x") "t" none none none "e" "e").1 "done" rfl rfl rfl,
   (c5_transient_backoff _ (.ok "x") "t" none none none "e" "e").2 "e" rfl rfl rfl⟩

/-- C4: when pages 1 and 2 are non-empty and page 3 is the first empty
page, the loop returns exactly the rows of pages 1 and 2 concatenated,
requests exactly pages 1, 2, 3 (page numbers incremented by 1, no request
for page 4), and ends in the normal-exhaustion `done` state, not a
failure. -/
theorem c4_pager_stops_at_first_empty_page
    (fetchPage : Nat → Except String (List RawRecord)) (fuel : Nat)
    (a b : RawRecord) (t1 t2 : List RawRecord) (r1 r2 : List Row)
    (h1 : fetchPage 1 = .ok (a :: t1)) (h2 : fetchPage 2 = .ok (b :: t2))
    (h3 : fetchPage 3 = .ok [])
    (hn1 : (a :: t1).mapM normalize = .ok r1) (hn2 : (b :: t2).mapM normalize = .ok r2) :
    mainRun fetchPage (fuel + 3) = .done (r1 ++ r2) [1, 2, 3] := by
  have hn1l : List.mapM.loop normalize (a :: t1) [] = .ok r1 := by
    simpa [List.mapM] using hn1
  have hn2l : List.mapM.loop normalize (b :: t2) [] = .ok r2 := by
    simpa [List.mapM] using hn2
  unfold mainRun
  simp [mainLoop, h1, h2, h3, hn1l, hn2l]

/-- Witness for C4: one-record pages 1 and 2, empty page 3. -/
theorem c4_pager_stops_at_first_empty_page_witness :
    mainRun (fun p => if p < 3 then .ok [sampleRec] else .ok []) (0 + 3) =
      .done ([sampleRow] ++ [sampleRow]) [1, 2, 3] :=
  c4_pager_stops_at_first_empty_page (fun p => if p < 3 then .ok [sampleRec] else .ok [])
    0 sampleRec sampleRec [] [] [sampleRow] [sampleRow] rfl rfl rfl rfl rfl

/-- C7: a run that aborts with an exception writes no output files, and
output files exist only for a run whose pagination loop completed normally
with a non-empty accumulator — there is no partial-success output. -/
theorem c7_no_output_on_fatal (fetchPage : Nat → Except String (List RawRecord)) (fuel : Nat) :
    (∀ e reqs, mainRun fetchPage fuel = .failed e reqs →
      writeOutputs (mainRun fetchPage fuel) = none) ∧
    (∀ out, writeOutputs (mainRun fetchPage fuel) = some out →
      ∃ rows reqs, mainRun fetchPage fuel = .done rows reqs ∧ rows ≠ [] ∧
        out = (rows, summarize rows)) := by
  cases h : mainRun fetchPage fuel with
  | done rows reqs =>
    refine ⟨fun e r hc => ?_, fun out hout => ?_⟩
    · exact absurd hc (by simp)
    · simp only [writeOutputs] at hout
      by_cases hr : rows = []
      · rw [if_pos hr] at hout; exact absurd hout (by simp)
      · rw [if_neg hr] at hout
        exact ⟨rows, reqs, rfl, hr, (Option.some.inj hout).symm⟩
  | failed e reqs =>
    refine ⟨fun e2 r2 _ => ?_, fun out hout => ?_⟩
    · rfl
    · exact absurd hout (by simp [writeOutputs])
  | outOfFuel rows reqs =>
    refine ⟨fun e r hc => ?_, fun out hout => ?_⟩
    · exact absurd hc (by simp)
    · exact absurd hout (by simp [writeOutputs])

/-- Witness for C7: a run whose first request fails writes no files. -/
theorem c7_no_output_on_fatal_witness :
    writeOutputs (mainRun (fun _ => .error "boom") 1) = none :=
  (c7_no_output_on_fatal (fun _ => .error "boom") 1).1 "boom" [1] rfl

/-- C6 counterexample: with a successful token exchange but a failing
`.env` write, `refresh_access_token` raises (`.error`) instead of
returning the new access token — the in-memory credentials were already
updated (`memAccess` holds the new token) and the durable store was not
(`envFile` unchanged), so the persistence failure does prevent the token
from being returned, contrary to the claim. -/
theorem c6_counterexample :
    (refresh_access_token (some "rt") (some "ci") (some "cs") (.ok "newAcc" "newRef" 9) false
        ⟨some "oldA", some "oldR", some "1", none⟩).2 = .error "failed to write .env" ∧
    (refresh_access_token (some "rt") (some "ci") (some "cs") (.ok "newAcc" "newRef" 9) false
        ⟨some "oldA", some "oldR", some "1", none⟩).1.memAccess = some "newAcc" ∧
    (refresh_access_token (some "rt") (some "ci") (some "cs") (.ok "newAcc" "newRef" 9) false
        ⟨some "oldA", some "oldR", some "1", none⟩).1.envFile = none :=
  ⟨rfl, rfl, rfl⟩

/-- C6 amended: on a successful exchange the in-memory credentials are
updated before persistence is attempted; if the `.env` write fails, the
in-memory update stands and the error propagates — the new access token is
NOT returned to the caller.  When persistence succeeds, the full new
credential set is persisted and the token is returned. -/
theorem c6_memory_updated_before_persist (rt ci cs acc ref : String) (exp : Nat)
    (st : CredState) (h1 : falsy (some rt) = false) (h2 : falsy (some ci) = false)
    (h3 : falsy (some cs) = false) :
    refresh_access_token (some rt) (some ci) (some cs) (.ok acc ref exp) false st =
      ({ st with memAccess := some acc, memRefresh := some ref,
                 memExpires := some (toString exp) }, .error "failed to write .env") ∧
    refresh_access_token (some rt) (some ci) (some cs) (.ok acc ref exp) true st =
      ({ st with memAccess := some acc, memRefresh := some ref,
                 memExpires := some (toString exp), envFile := some (acc, ref, exp) },
       .ok acc) := by
  constructor <;> simp [refresh_access_token, h1, h2, h3]

/-- Witness for the amended C6 at concrete credentials. -/
theorem c6_memory_updated_before_persist_witness :
    refresh_access_token (some "r") (some "i") (some "s") (.ok "na" "nr" 9) false
        ⟨none, none, none, none⟩ =
      ({ memAccess := some "na", memRefresh := some "nr", memExpires := some (toString 9),
         envFile := none }, .error "failed to write .env") ∧
    refresh_access_token (some "r") (some "i") (some "s") (.ok "na" "nr" 9) true
        ⟨none, none, none, none⟩ =
      ({ memAccess := some "na", memRefresh := some "nr", memExpires := some (toString 9),
         envFile := some ("na", "nr", 9) }, .ok "na") :=
  c6_memory_updated_before_persist "r" "i" "s" "na" "nr" 9 ⟨none, none, none, none⟩ rfl rfl rfl

end StravaFetch
